import Mathlib

/-!
Shallow embedding of the mood-based song recommendation pipeline
(the `generateSongs` module: genre presets, feature estimation, mood
scoring, candidate collection, ranking, and the mock fallback), together
with theorems checking the specification's claims against it.

Numbers: the JavaScript source computes with floating point numbers; the
embedding uses `ℚ`, on which every constant of the source (0.9, 0.6, …)
and every operation used (addition, subtraction, absolute value,
division by a count, `Math.round`, comparisons) is exact.  Decimal
constants are written as fractions (`9/10` for `0.9`).

Strings: genre keywords and identifiers are ASCII, so JavaScript
`toLowerCase` is embedded as per-character ASCII lowercasing and
`String.prototype.includes` as a contiguous-run search on the character
list.
-/

namespace Moodify

/-- JavaScript `Math.round`: round half toward positive infinity,
`Math.round(x) = ⌊x + 1/2⌋`. -/
def jsRound (q : ℚ) : ℤ := ⌊q + 1/2⌋

/-- ASCII lowercasing of one character (JavaScript `toLowerCase` on the
ASCII range the genre strings live in). -/
def lowerChar (c : Char) : Char :=
  if 'A' ≤ c ∧ c ≤ 'Z' then Char.ofNat (c.toNat + 32) else c

/-- Embedding of JavaScript `g.toLowerCase()`. -/
def lowerString (s : String) : String := String.mk (s.data.map lowerChar)

/-- Substring test on character lists: does `hay` start with `needle`?
Backs the embedding of JavaScript `String.prototype.includes`. -/
def headMatches : List Char → List Char → Bool
  | [], _ => true
  | _ :: _, [] => false
  | a :: as, b :: bs => a == b && headMatches as bs

/-- Does `needle` occur as a contiguous run inside `hay`?  Embeds
JavaScript `hay.includes(needle)`. -/
def containsCL : List Char → List Char → Bool
  | [], needle => headMatches needle []
  | h :: t, needle => headMatches needle (h :: t) || containsCL t needle

/-- JavaScript `g.includes(kw)` on strings. -/
def strIncludes (g kw : String) : Bool := containsCL g.toList kw.toList

/-- Feature triple `{energy, danceability, valence}`.  Serves both as the
caller's mood settings and as an estimated feature vector (the source
uses the same plain-object shape for both). -/
structure Features where
  energy : ℚ
  danceability : ℚ
  valence : ℚ
deriving DecidableEq

/-- Mood settings are the same shape as a feature vector. -/
abbrev MoodSettings := Features

/-- One entry of the genre preset table: keyword list plus the canonical
feature triple credited on a keyword hit. -/
structure GenrePreset where
  keywords : List String
  energy : ℚ
  danceability : ℚ
  valence : ℚ
deriving DecidableEq

/-- The static preset table, in source order (order is load-bearing:
matching credits the first preset with a keyword hit). -/
def GENRE_PRESETS : List GenrePreset :=
  [⟨["edm", "electro", "house", "techno", "trance", "dubstep"], 9/10, 8/10, 6/10⟩,
   ⟨["dance pop", "pop", "k-pop", "electropop"], 8/10, 85/100, 8/10⟩,
   ⟨["hip hop", "rap", "trap"], 8/10, 9/10, 6/10⟩,
   ⟨["r&b", "soul"], 6/10, 7/10, 7/10⟩,
   ⟨["indie", "alt", "alternative"], 55/100, 6/10, 6/10⟩,
   ⟨["rock", "hard rock", "punk"], 8/10, 55/100, 55/100⟩,
   ⟨["metal"], 95/100, 4/10, 4/10⟩,
   ⟨["lo-fi", "chill", "ambient", "downtempo"], 3/10, 4/10, 6/10⟩,
   ⟨["acoustic", "folk", "singer-songwriter"], 4/10, 45/100, 7/10⟩,
   ⟨["classical", "soundtrack", "score"], 35/100, 25/100, 6/10⟩]

/-- The fixed default triple returned when no genre matches. -/
def DEFAULT_FEATURES : Features := ⟨6/10, 6/10, 6/10⟩

/-- Does genre string `g` hit preset `p` (some keyword is a substring of
`g`)? -/
def presetHit (g : String) (p : GenrePreset) : Bool :=
  p.keywords.any (fun kw => strIncludes g kw)

/-- First preset of the table, in table order, hit by genre string `g`
(the inner `for … break` of the source). -/
def firstPreset (g : String) : Option GenrePreset :=
  GENRE_PRESETS.find? (presetHit g)

/-- The presets credited by the scan: one per genre that hits any preset,
namely the first hit in table order. -/
def creditedPresets (lowerGenres : List String) : List GenrePreset :=
  lowerGenres.filterMap firstPreset

/-- Embedding of `estimateFeaturesFromGenres`: lowercases the genres,
credits the first matching preset per genre, and averages the credited
triples; returns the default triple when the list is absent, empty, or
yields no match.  The accumulator loop of the source is rendered as sums
over the list of credited presets, in the same order. -/
def estimateFeaturesFromGenres : Option (List String) → Features
  | none => DEFAULT_FEATURES
  | some genres =>
    if genres.length = 0 then DEFAULT_FEATURES
    else
      let credited := creditedPresets (genres.map lowerString)
      let matchCount := credited.length
      if matchCount = 0 then DEFAULT_FEATURES
      else
        ⟨(credited.map GenrePreset.energy).sum / (matchCount : ℚ),
         (credited.map GenrePreset.danceability).sum / (matchCount : ℚ),
         (credited.map GenrePreset.valence).sum / (matchCount : ℚ)⟩

/-- Embedding of `calculateMoodScore`: L1 distance between the estimated
features and the target mood. -/
def calculateMoodScore (features moodSettings : Features) : ℚ :=
  |features.energy - moodSettings.energy|
    + |features.danceability - moodSettings.danceability|
    + |features.valence - moodSettings.valence|

/-- Zero-padding of the seconds field (`padStart(2, "0")` on a value
below 60). -/
def pad2 (n : Nat) : String := if n < 10 then "0" ++ toString n else toString n

/-- Embedding of `formatDuration`: an absent duration renders as the
empty string; a present one as minutes and zero-padded seconds. -/
def formatDuration : Option Nat → String
  | none => ""
  | some ms =>
    let totalSeconds := ms / 1000
    let minutes := totalSeconds / 60
    let seconds := totalSeconds % 60
    toString minutes ++ ":" ++ pad2 seconds

/-- Artist as embedded in a track object: identifier and display name.
An absent id on the wire is embedded as the empty string, which the
source treats identically (both are falsy). -/
structure Artist where
  id : String
  name : String
deriving DecidableEq

/-- Album metadata consumed from a track object: name and artwork URLs. -/
structure Album where
  name : String
  images : List String
deriving DecidableEq

/-- Track object shape consumed from the catalog. -/
structure Track where
  id : String
  name : String
  artists : List Artist
  album : Option Album
  duration_ms : Option Nat
deriving DecidableEq

/-- Artist record returned by the catalog: identifier and genre list.
The `genres` field may be absent on the wire, which the source
distinguishes from its being the empty array. -/
structure ArtistRecord where
  id : String
  genres : Option (List String)
deriving DecidableEq

/-- Caller-facing output shape. -/
structure Recommendation where
  id : String
  title : String
  artist : String
  album : String
  duration : String
  imageUrl : String
  reason : String
deriving DecidableEq

/-- A candidate track with its estimated features and mood score. -/
structure ScoredCandidate where
  track : Track
  features : Features
  moodScore : ℚ
deriving DecidableEq

/-- Reason string of a mock entry. -/
def mkMockReason (e d v : ℤ) : String :=
  toString e ++ "% energy match, " ++ toString d ++ "% danceability match, "
    ++ toString v ++ "% mood match"

/-- Embedding of `generateMockSongs`: the fixed ten-entry placeholder
list.  The seed track is accepted (the source derives a `trackName` from
it) but contributes nothing to the returned value; each entry's
percentages are `Math.round` of a target dimension times a per-entry
constant, with no clamping. -/
def generateMockSongs (seedSong : Track) (moodSettings : Features) : List Recommendation :=
  let baseEnergy := moodSettings.energy
  let baseValence := moodSettings.valence
  [⟨"mock-1", "Midnight Dreams", "Luna Wave", "Nocturnal", "3:42",
    "https://images.unsplash.com/photo-1470225620780-dba8ba36b745?w=400&h=400&fit=crop",
    mkMockReason (jsRound (baseEnergy * 100)) (jsRound (moodSettings.danceability * 100))
      (jsRound (baseValence * 100))⟩,
   ⟨"mock-2", "Electric Horizon", "Neon Coast", "Skywave", "4:05",
    "https://images.unsplash.com/photo-1526170375885-4d8ecf77b99f?w=400&h=400&fit=crop",
    mkMockReason (jsRound (baseEnergy * 95)) (jsRound (moodSettings.danceability * 90))
      (jsRound (baseValence * 90))⟩,
   ⟨"mock-3", "Violet Echoes", "Astral Bloom", "Reflections", "2:58",
    "https://images.unsplash.com/photo-1507875703980-84f7b92febe1?w=400&h=400&fit=crop",
    mkMockReason (jsRound (baseEnergy * 110)) (jsRound (moodSettings.danceability * 95))
      (jsRound (baseValence * 85))⟩,
   ⟨"mock-4", "Chrome Streetlights", "Echo District", "Afterglow", "3:21",
    "https://images.unsplash.com/photo-1507874457470-272b3c8d8ee2?w=400&h=400&fit=crop",
    mkMockReason (jsRound (baseEnergy * 88)) (jsRound (moodSettings.danceability * 92))
      (jsRound (baseValence * 92))⟩,
   ⟨"mock-5", "Crystal Pulse", "Nova Circuit", "Lumina", "3:55",
    "https://images.unsplash.com/photo-1535223289827-42f1e9919769?w=400&h=400&fit=crop",
    mkMockReason (jsRound (baseEnergy * 102)) (jsRound (moodSettings.danceability * 98))
      (jsRound (baseValence * 98))⟩,
   ⟨"mock-6", "Silver Haze", "Moon District", "Nebula Streets", "4:11",
    "https://images.unsplash.com/photo-1526170375885-4d8ecf77b99f?w=400&h=400&fit=crop",
    mkMockReason (jsRound (baseEnergy * 93)) (jsRound (moodSettings.danceability * 87))
      (jsRound (baseValence * 87))⟩,
   ⟨"mock-7", "Neon Waves", "Digital Sunset", "Cyber Dreams", "3:33",
    "https://images.unsplash.com/photo-1493225457124-a3eb161ffa5f?w=400&h=400&fit=crop",
    mkMockReason (jsRound (baseEnergy * 91)) (jsRound (moodSettings.danceability * 89))
      (jsRound (baseValence * 94))⟩,
   ⟨"mock-8", "Starlight Echo", "Cosmic Drift", "Interstellar", "4:20",
    "https://images.unsplash.com/photo-1514525253161-7a46d19cd819?w=400&h=400&fit=crop",
    mkMockReason (jsRound (baseEnergy * 97)) (jsRound (moodSettings.danceability * 85))
      (jsRound (baseValence * 88))⟩,
   ⟨"mock-9", "Urban Pulse", "City Lights", "Metropolitan", "3:15",
    "https://images.unsplash.com/photo-1511379938547-c1f69419868d?w=400&h=400&fit=crop",
    mkMockReason (jsRound (baseEnergy * 94)) (jsRound (moodSettings.danceability * 96))
      (jsRound (baseValence * 91))⟩,
   ⟨"mock-10", "Velvet Night", "Smooth Operator", "After Hours", "3:48",
    "https://images.unsplash.com/photo-1415201364774-f6f0bb35f28f?w=400&h=400&fit=crop",
    mkMockReason (jsRound (baseEnergy * 86)) (jsRound (moodSettings.danceability * 83))
      (jsRound (baseValence * 89))⟩]

/-- The ten fixed identifiers of the mock list. -/
def mockIds : List String :=
  ["mock-1", "mock-2", "mock-3", "mock-4", "mock-5",
   "mock-6", "mock-7", "mock-8", "mock-9", "mock-10"]

/-- Upstream catalog responses for one request, supplied as data: the
seed-artist lookup, the top-tracks lookup, the per-query track search,
and the batched artist lookup.  `Except.error` embeds a rejected
request. -/
structure Upstream where
  artistResult : Except Unit ArtistRecord
  topTracksResult : Except Unit (List Track)
  searchResults : String → Except Unit (List Track)
  artistBatches : List String → Except Unit (List ArtistRecord)

/-- One step of the dedup-and-collect loops: a track whose id is already
in the seen set is skipped, otherwise it is appended and its id
recorded. -/
def considerTrack (cs : List Track × List String) (t : Track) :
    List Track × List String :=
  if t.id ∈ cs.2 then cs else (cs.1 ++ [t], cs.2 ++ [t.id])

/-- Inner loop over one genre search's results: add unseen tracks; the
pool-size check runs after each item, so the loop breaks as soon as the
pool has at least 40 tracks — after the current item was processed. -/
def addFound : List Track → List Track × List String → List Track × List String
  | [], cs => cs
  | t :: ts, cs =>
    let next := considerTrack cs t
    if 40 ≤ next.1.length then next else addFound ts next

/-- One genre iteration: issue the search; a failed search leaves the
pool unchanged (logged and skipped in the source). -/
def searchStep (env : Upstream) (g : String) (cs : List Track × List String) :
    List Track × List String :=
  match env.searchResults g with
  | Except.error _ => cs
  | Except.ok found => addFound found cs

/-- Outer loop over the main genres.  Returns the grown pool and seen
set, together with the list of genres whose search was actually issued;
the source breaks out of this loop once the pool has at least 40
tracks. -/
def searchGenres (env : Upstream) :
    List String → List Track × List String → (List Track × List String) × List String
  | [], cs => (cs, [])
  | g :: gs, cs =>
    let next := searchStep env g cs
    if 40 ≤ next.1.length then (next, [g])
    else
      let r := searchGenres env gs next
      (r.1, g :: r.2)

/-- Candidate collection: seed the seen set with the seed track's id,
add every unseen top track, then run the genre searches. -/
def collectCandidates (seedId : String) (topTracks : List Track)
    (mainGenres : List String) (env : Upstream) :
    (List Track × List String) × List String :=
  let start := topTracks.foldl considerTrack ([], [seedId])
  searchGenres env mainGenres start

/-- The candidate pool the live path computes from the upstream
responses (empty when either initial retrieval fails). -/
def collectedPool (seedSong : Track) (env : Upstream) : List Track :=
  match env.artistResult, env.topTracksResult with
  | Except.ok seedArtist, Except.ok topTracks =>
    (collectCandidates seedSong.id topTracks
      ((seedArtist.genres.getD []).take 2) env).1.1
  | _, _ => []

/-- Truthiness of `track.artists?.[0]?.id`: the first artist's id when
present and nonempty. -/
def truthyHeadArtistId (t : Track) : Option String :=
  match t.artists.head? with
  | none => none
  | some a => if a.id = "" then none else some a.id

/-- JavaScript `Set.add`: append only when new (keeps insertion order). -/
def insertIfNew (acc : List String) (x : String) : List String :=
  if x ∈ acc then acc else acc ++ [x]

/-- Distinct primary-artist ids across the candidates, in first-seen
order. -/
def artistIdList (cand : List Track) : List String :=
  (cand.filterMap truthyHeadArtistId).foldl insertIfNew []

/-- Batches of at most 50 ids (the upstream hard limit). -/
def chunk50 (l : List String) : List (List String) :=
  if h : l = [] then []
  else l.take 50 :: chunk50 (l.drop 50)
termination_by l.length
decreasing_by
  have hl : 0 < l.length := List.length_pos.mpr h
  simp only [List.length_drop]
  omega

/-- The id-to-record artist map: the batches are fetched in order, a
failed batch is skipped, and a later record for an id overwrites an
earlier one (the most recent binding is listed first, and lookup takes
the first hit). -/
def artistMapOfBatches (env : Upstream) (ids : List String) :
    List (String × ArtistRecord) :=
  (chunk50 ids).foldl
    (fun m batch =>
      match env.artistBatches batch with
      | Except.error _ => m
      | Except.ok artists => artists.foldl (fun acc a => (a.id, a) :: acc) m)
    []

/-- Lookup in the artist map (`artistMap[id]`). -/
def lookupArtist (m : List (String × ArtistRecord)) (i : String) :
    Option ArtistRecord :=
  (m.find? (fun p => p.1 == i)).map Prod.snd

/-- The resolved record of a candidate's primary artist:
`primaryArtistId ? artistMap[primaryArtistId] : null`. -/
def lookupPrimaryArtist (m : List (String × ArtistRecord)) (t : Track) :
    Option ArtistRecord :=
  match truthyHeadArtistId t with
  | none => none
  | some i => lookupArtist m i

/-- Genre list used to score a candidate (`artist?.genres ||
seedGenres`): the resolved primary artist's genres when the record is
present and carries a `genres` field — an empty array is present, hence
kept — and the seed artist's genres otherwise. -/
def genresForTrack (m : List (String × ArtistRecord)) (seedGenres : List String)
    (t : Track) : List String :=
  match lookupPrimaryArtist m t with
  | none => seedGenres
  | some a =>
    match a.genres with
    | none => seedGenres
    | some gs => gs

/-- Estimate features for a candidate and score it against the target
mood. -/
def scoreTrack (m : List (String × ArtistRecord)) (seedGenres : List String)
    (mood : Features) (t : Track) : ScoredCandidate :=
  let features := estimateFeaturesFromGenres (some (genresForTrack m seedGenres t))
  ⟨t, features, calculateMoodScore features mood⟩

/-- The sort comparator of the source (`a.moodScore - b.moodScore`,
i.e. ascending by mood score). -/
def scoreLE (a b : ScoredCandidate) : Bool := decide (a.moodScore ≤ b.moodScore)

/-- JavaScript `Array.prototype.sort` is stable (ECMAScript 2019); the
embedding uses the stable `List.mergeSort`. -/
def sortScored (l : List ScoredCandidate) : List ScoredCandidate :=
  l.mergeSort scoreLE

/-- One match percentage of the live path:
`Math.round((1 - Math.abs(feature - target)) * 100)`. -/
def matchPercent (f t : ℚ) : ℤ := jsRound ((1 - |f - t|) * 100)

/-- Reason string of a live entry. -/
def mkLiveReason (e d v : ℤ) (seedArtistName : String) : String :=
  toString e ++ "% energy match, " ++ toString d ++ "% danceability match, "
    ++ toString v ++ "% mood match (estimated from genres similar to "
    ++ seedArtistName ++ ")"

/-- Map a scored candidate to the caller-facing shape. -/
def formatRec (mood : Features) (seedArtistName : String)
    (sc : ScoredCandidate) : Recommendation :=
  ⟨sc.track.id, sc.track.name,
   String.intercalate ", " (sc.track.artists.map Artist.name),
   (sc.track.album.map Album.name).getD "",
   formatDuration sc.track.duration_ms,
   ((sc.track.album.map Album.images).getD []).headD "",
   mkLiveReason (matchPercent sc.features.energy mood.energy)
     (matchPercent sc.features.danceability mood.danceability)
     (matchPercent sc.features.valence mood.valence) seedArtistName⟩

/-- Ranker: score every candidate, stable-sort ascending by mood score,
take the first 10, and map each to the output shape. -/
def rankAndFormat (m : List (String × ArtistRecord)) (seedGenres : List String)
    (seedArtistName : String) (mood : Features) (cand : List Track) :
    List Recommendation :=
  let tracksWithScores := sortScored (cand.map (scoreTrack m seedGenres mood))
  (tracksWithScores.take 10).map (formatRec mood seedArtistName)

/-- Embedding of the caller-facing `generateSongs`.  The upstream
responses are supplied as data (`env`); the `try`/`catch` of the source
appears as the `Except` matches.  A missing token, a seed track without
a truthy primary-artist id, a failed initial retrieval, or an empty
candidate pool all resolve to the mock list. -/
def generateSongs (seedSong : Track) (moodSettings : Features)
    (token : Option String) (env : Upstream) : List Recommendation :=
  match token with
  | none => generateMockSongs seedSong moodSettings
  | some _ =>
    match truthyHeadArtistId seedSong with
    | none => generateMockSongs seedSong moodSettings
    | some _ =>
      match env.artistResult, env.topTracksResult with
      | Except.ok seedArtist, Except.ok topTracks =>
        let seedGenres := seedArtist.genres.getD []
        let candidateTracks :=
          (collectCandidates seedSong.id topTracks (seedGenres.take 2) env).1.1
        if candidateTracks.length = 0 then generateMockSongs seedSong moodSettings
        else
          let artistMap := artistMapOfBatches env (artistIdList candidateTracks)
          let seedArtistName :=
            match seedSong.artists.head? with
            | some a => a.name
            | none => ""
          rankAndFormat artistMap seedGenres seedArtistName moodSettings
            candidateTracks
      | _, _ => generateMockSongs seedSong moodSettings

/-- Each component of a feature triple lies in the unit interval. -/
def inCube (f : Features) : Prop :=
  0 ≤ f.energy ∧ f.energy ≤ 1 ∧ 0 ≤ f.danceability ∧ f.danceability ≤ 1 ∧
    0 ≤ f.valence ∧ f.valence ≤ 1

/-- Invariant of the collection loops: candidate ids are distinct, every
candidate id is in the seen set, and the seed id is in the seen set but
not among the candidates. -/
def CollInv (seedId : String) (cs : List Track × List String) : Prop :=
  (cs.1.map Track.id).Nodup ∧ (∀ t ∈ cs.1, t.id ∈ cs.2) ∧
    seedId ∈ cs.2 ∧ seedId ∉ cs.1.map Track.id

/-- An environment in which every upstream request is rejected. -/
def env0 : Upstream :=
  ⟨Except.error (), Except.error (), fun _ => Except.error (),
   fun _ => Except.error ()⟩

/-- A seed track whose identifier collides with the first fixed mock
identifier. -/
def seedClash : Track := ⟨"mock-1", "Seed", [⟨"a1", "A"⟩], none, none⟩

/-- An environment in which both initial retrievals succeed — the seed
artist has no genre list and one top track is returned — so the live
path runs with a one-track pool. -/
def envLive : Upstream :=
  ⟨Except.ok ⟨"a1", none⟩,
   Except.ok [⟨"top-1", "Top", [⟨"a1", "A"⟩], none, none⟩],
   fun _ => Except.error (), fun _ => Except.error ()⟩

/-- A numbered placeholder track. -/
def mkTrk (i : Nat) : Track := ⟨"t" ++ toString i, "", [], none, none⟩

/-- Forty distinct placeholder top tracks. -/
def c5top : List Track := (List.range 40).map mkTrk

/-- Two further distinct tracks returned by the two genre searches. -/
def trkA : Track := ⟨"extra-a", "", [], none, none⟩

/-- Second further distinct track. -/
def trkB : Track := ⟨"extra-b", "", [], none, none⟩

/-- An environment whose genre searches succeed: `g1` finds `trkA`, any
other query finds `trkB`. -/
def envC5 : Upstream :=
  ⟨Except.error (), Except.error (),
   fun g => if g = "g1" then Except.ok [trkA] else Except.ok [trkB],
   fun _ => Except.error ()⟩

end Moodify

namespace Moodify

lemma preset_bounds : ∀ p ∈ GENRE_PRESETS,
    (0 ≤ p.energy ∧ p.energy ≤ 1) ∧ (0 ≤ p.danceability ∧ p.danceability ≤ 1) ∧
      (0 ≤ p.valence ∧ p.valence ≤ 1) := by
  intro p hp
  simp only [GENRE_PRESETS, List.mem_cons, List.not_mem_nil, or_false] at hp
  rcases hp with h | h | h | h | h | h | h | h | h | h <;> subst h <;>
    refine ⟨⟨by norm_num, by norm_num⟩, ⟨by norm_num, by norm_num⟩,
      by norm_num, by norm_num⟩

lemma mem_of_mem_credited {p : GenrePreset} {gs : List String}
    (hp : p ∈ creditedPresets gs) : p ∈ GENRE_PRESETS := by
  simp only [creditedPresets, List.mem_filterMap] at hp
  obtain ⟨g, -, hg⟩ := hp
  exact List.mem_of_find?_eq_some hg

lemma estimate_none_eq : estimateFeaturesFromGenres none = DEFAULT_FEATURES := rfl

lemma estimate_nil_eq : estimateFeaturesFromGenres (some []) = DEFAULT_FEATURES := rfl

lemma estimate_no_match {genres : List String}
    (h : creditedPresets (genres.map lowerString) = []) :
    estimateFeaturesFromGenres (some genres) = DEFAULT_FEATURES := by
  cases genres with
  | nil => rfl
  | cons a t =>
    simp only [List.map_cons] at h
    simp [estimateFeaturesFromGenres, h]

lemma estimate_eq_avg {genres : List String}
    (h : creditedPresets (genres.map lowerString) ≠ []) :
    estimateFeaturesFromGenres (some genres) =
      ⟨((creditedPresets (genres.map lowerString)).map GenrePreset.energy).sum /
          ((creditedPresets (genres.map lowerString)).length : ℚ),
       ((creditedPresets (genres.map lowerString)).map GenrePreset.danceability).sum /
          ((creditedPresets (genres.map lowerString)).length : ℚ),
       ((creditedPresets (genres.map lowerString)).map GenrePreset.valence).sum /
          ((creditedPresets (genres.map lowerString)).length : ℚ)⟩ := by
  have hg : genres ≠ [] := by
    intro he
    subst he
    exact h rfl
  have hlen : ¬ genres.length = 0 := by
    simpa [List.length_eq_zero] using hg
  have hclen : ¬ (creditedPresets (genres.map lowerString)).length = 0 := by
    simpa [List.length_eq_zero] using h
  simp [estimateFeaturesFromGenres, hlen, hclen]

lemma avg_mem_unit (l : List ℚ) (hne : l ≠ [])
    (h0 : ∀ x ∈ l, 0 ≤ x) (h1 : ∀ x ∈ l, x ≤ 1) :
    0 ≤ l.sum / (l.length : ℚ) ∧ l.sum / (l.length : ℚ) ≤ 1 := by
  have hlen : (0 : ℚ) < (l.length : ℚ) := by
    exact_mod_cast List.length_pos.mpr hne
  constructor
  · exact div_nonneg (List.sum_nonneg h0) hlen.le
  · rw [div_le_one hlen]
    have := List.sum_le_card_nsmul l 1 h1
    simpa using this

lemma estimate_inCube (g : Option (List String)) :
    inCube (estimateFeaturesFromGenres g) := by
  have hdef : inCube DEFAULT_FEATURES := by
    refine ⟨by norm_num [DEFAULT_FEATURES], by norm_num [DEFAULT_FEATURES],
      by norm_num [DEFAULT_FEATURES], by norm_num [DEFAULT_FEATURES],
      by norm_num [DEFAULT_FEATURES], by norm_num [DEFAULT_FEATURES]⟩
  match g with
  | none => exact hdef
  | some genres =>
    by_cases hc : creditedPresets (genres.map lowerString) = []
    · rw [estimate_no_match hc]
      exact hdef
    · rw [estimate_eq_avg hc]
      set credited := creditedPresets (genres.map lowerString) with hcred
      have hb : ∀ p ∈ credited,
          (0 ≤ p.energy ∧ p.energy ≤ 1) ∧
            (0 ≤ p.danceability ∧ p.danceability ≤ 1) ∧
            (0 ≤ p.valence ∧ p.valence ≤ 1) :=
        fun p hp => preset_bounds p (mem_of_mem_credited hp)
    /- Bounds for each of the three averaged components. -/
      have he := avg_mem_unit (credited.map GenrePreset.energy)
        (by simpa using hc)
        (by intro x hx
            obtain ⟨p, hp, rfl⟩ := List.mem_map.mp hx
            exact (hb p hp).1.1)
        (by intro x hx
            obtain ⟨p, hp, rfl⟩ := List.mem_map.mp hx
            exact (hb p hp).1.2)
      have hd := avg_mem_unit (credited.map GenrePreset.danceability)
        (by simpa using hc)
        (by intro x hx
            obtain ⟨p, hp, rfl⟩ := List.mem_map.mp hx
            exact (hb p hp).2.1.1)
        (by intro x hx
            obtain ⟨p, hp, rfl⟩ := List.mem_map.mp hx
            exact (hb p hp).2.1.2)
      have hv := avg_mem_unit (credited.map GenrePreset.valence)
        (by simpa using hc)
        (by intro x hx
            obtain ⟨p, hp, rfl⟩ := List.mem_map.mp hx
            exact (hb p hp).2.2.1)
        (by intro x hx
            obtain ⟨p, hp, rfl⟩ := List.mem_map.mp hx
            exact (hb p hp).2.2.2)
      simp only [List.length_map] at he hd hv
      exact ⟨he.1, he.2, hd.1, hd.2, hv.1, hv.2⟩

/-- C2: `estimateFeaturesFromGenres` credits, per genre, the first preset
in table order with a substring keyword hit (`creditedPresets` lists the
first-match preset of each matching genre, in scan order) and returns
the elementwise mean of the credited triples over the match count; an
absent list, the empty list, or a list in which no genre matches any
preset yields the default triple `{0.6, 0.6, 0.6}`; and the input
`["techno", "acoustic"]` yields `{0.65, 0.625, 0.65}`. -/
theorem C2_estimator_mean_and_defaults (genres : List String) :
    estimateFeaturesFromGenres none = DEFAULT_FEATURES
  ∧ estimateFeaturesFromGenres (some []) = DEFAULT_FEATURES
  ∧ DEFAULT_FEATURES = ⟨6/10, 6/10, 6/10⟩
  ∧ (creditedPresets (genres.map lowerString) = [] →
      estimateFeaturesFromGenres (some genres) = DEFAULT_FEATURES)
  ∧ (creditedPresets (genres.map lowerString) ≠ [] →
      estimateFeaturesFromGenres (some genres) =
        ⟨((creditedPresets (genres.map lowerString)).map GenrePreset.energy).sum /
            ((creditedPresets (genres.map lowerString)).length : ℚ),
         ((creditedPresets (genres.map lowerString)).map GenrePreset.danceability).sum /
            ((creditedPresets (genres.map lowerString)).length : ℚ),
         ((creditedPresets (genres.map lowerString)).map GenrePreset.valence).sum /
            ((creditedPresets (genres.map lowerString)).length : ℚ)⟩)
  ∧ estimateFeaturesFromGenres (some ["techno", "acoustic"]) = ⟨13/20, 5/8, 13/20⟩ := by
  refine ⟨rfl, rfl, rfl, fun h => estimate_no_match h, fun h => estimate_eq_avg h, ?_⟩
  have hc : creditedPresets [lowerString "techno", lowerString "acoustic"] =
      [⟨["edm", "electro", "house", "techno", "trance", "dubstep"], 9/10, 8/10, 6/10⟩,
       ⟨["acoustic", "folk", "singer-songwriter"], 4/10, 45/100, 7/10⟩] := rfl
  simp only [estimateFeaturesFromGenres, List.map, hc, List.sum_cons, List.sum_nil,
    List.length_cons, List.length_nil]
  norm_num

/-- Witness for C2: the no-match hypothesis holds at `["zzz"]` and the
match hypothesis holds at `["techno"]`. -/
theorem C2_witness :
    (creditedPresets (["zzz"].map lowerString) = []
      ∧ estimateFeaturesFromGenres (some ["zzz"]) = DEFAULT_FEATURES)
  ∧ (creditedPresets (["techno"].map lowerString) ≠ []
      ∧ estimateFeaturesFromGenres (some ["techno"]) =
        ⟨((creditedPresets (["techno"].map lowerString)).map GenrePreset.energy).sum /
            ((creditedPresets (["techno"].map lowerString)).length : ℚ),
         ((creditedPresets (["techno"].map lowerString)).map GenrePreset.danceability).sum /
            ((creditedPresets (["techno"].map lowerString)).length : ℚ),
         ((creditedPresets (["techno"].map lowerString)).map GenrePreset.valence).sum /
            ((creditedPresets (["techno"].map lowerString)).length : ℚ)⟩) :=
  have h1 : creditedPresets (["zzz"].map lowerString) = [] := rfl
  have h2 : creditedPresets (["techno"].map lowerString) ≠ [] := by
    rw [show creditedPresets (["techno"].map lowerString) =
      [⟨["edm", "electro", "house", "techno", "trance", "dubstep"],
        9/10, 8/10, 6/10⟩] from rfl]
    exact List.cons_ne_nil _ _
  ⟨⟨h1, (C2_estimator_mean_and_defaults ["zzz"]).2.2.2.1 h1⟩,
   ⟨h2, (C2_estimator_mean_and_defaults ["techno"]).2.2.2.2.1 h2⟩⟩

/-- C6: `calculateMoodScore` is the sum of the absolute differences
across the three dimensions (an L1 distance), zero exactly when the two
triples are equal; and when both triples lie in the unit cube every
per-dimension difference lies in `[0, 1]` and the score lies in
`[0, 3]`. -/
theorem C6_mood_score_L1 (features moodSettings : Features) :
    calculateMoodScore features moodSettings =
        |features.energy - moodSettings.energy| +
          |features.danceability - moodSettings.danceability| +
          |features.valence - moodSettings.valence|
  ∧ (calculateMoodScore features moodSettings = 0 ↔ features = moodSettings)
  ∧ (inCube features → inCube moodSettings →
      (0 ≤ |features.energy - moodSettings.energy| ∧
          |features.energy - moodSettings.energy| ≤ 1) ∧
      (0 ≤ |features.danceability - moodSettings.danceability| ∧
          |features.danceability - moodSettings.danceability| ≤ 1) ∧
      (0 ≤ |features.valence - moodSettings.valence| ∧
          |features.valence - moodSettings.valence| ≤ 1) ∧
      0 ≤ calculateMoodScore features moodSettings ∧
      calculateMoodScore features moodSettings ≤ 3) := by
  obtain ⟨fe, fd, fv⟩ := features
  obtain ⟨me, md, mv⟩ := moodSettings
  refine ⟨rfl, ?_, ?_⟩
  · simp only [calculateMoodScore, Features.mk.injEq]
    constructor
    · intro h
      have a1 := abs_nonneg (fe - me)
      have a2 := abs_nonneg (fd - md)
      have a3 := abs_nonneg (fv - mv)
      have h1 : |fe - me| = 0 := by linarith
      have h2 : |fd - md| = 0 := by linarith
      have h3 : |fv - mv| = 0 := by linarith
      exact ⟨by linarith [sub_eq_zero.mp (abs_eq_zero.mp h1)],
        by linarith [sub_eq_zero.mp (abs_eq_zero.mp h2)],
        by linarith [sub_eq_zero.mp (abs_eq_zero.mp h3)]⟩
    · rintro ⟨rfl, rfl, rfl⟩
      simp
  · intro hf hm
    obtain ⟨hf1, hf2, hf3, hf4, hf5, hf6⟩ := hf
    obtain ⟨hm1, hm2, hm3, hm4, hm5, hm6⟩ := hm
    simp only at hf1 hf2 hf3 hf4 hf5 hf6 hm1 hm2 hm3 hm4 hm5 hm6
    have e1 : |fe - me| ≤ 1 := abs_le.mpr ⟨by linarith, by linarith⟩
    have d1 : |fd - md| ≤ 1 := abs_le.mpr ⟨by linarith, by linarith⟩
    have v1 : |fv - mv| ≤ 1 := abs_le.mpr ⟨by linarith, by linarith⟩
    have a1 := abs_nonneg (fe - me)
    have a2 := abs_nonneg (fd - md)
    have a3 := abs_nonneg (fv - mv)
    refine ⟨⟨a1, e1⟩, ⟨a2, d1⟩, ⟨a3, v1⟩, ?_, ?_⟩
    · simp only [calculateMoodScore]
      linarith
    · simp only [calculateMoodScore]
      linarith

/-- Witness for C6: the unit-cube hypotheses hold at two concrete
triples and the bounds follow there. -/
theorem C6_witness :
    inCube (⟨1/2, 1/2, 1/2⟩ : Features) ∧ inCube (⟨1, 0, 1/2⟩ : Features) ∧
      (0 ≤ calculateMoodScore ⟨1/2, 1/2, 1/2⟩ ⟨1, 0, 1/2⟩ ∧
        calculateMoodScore ⟨1/2, 1/2, 1/2⟩ ⟨1, 0, 1/2⟩ ≤ 3) :=
  have h1 : inCube (⟨1/2, 1/2, 1/2⟩ : Features) := by
    refine ⟨by norm_num, by norm_num, by norm_num, by norm_num, by norm_num, by norm_num⟩
  have h2 : inCube (⟨1, 0, 1/2⟩ : Features) := by
    refine ⟨by norm_num, by norm_num, by norm_num, by norm_num, by norm_num, by norm_num⟩
  ⟨h1, h2, ((C6_mood_score_L1 ⟨1/2, 1/2, 1/2⟩ ⟨1, 0, 1/2⟩).2.2 h1 h2).2.2.2⟩

/-- C7: every component of the estimator's output triple lies in
`[0, 1]`, for every genre list (including the absent list, every preset
combination, and the no-match default). -/
theorem C7_estimator_unit_bounds (genres : Option (List String)) :
    (0 ≤ (estimateFeaturesFromGenres genres).energy ∧
      (estimateFeaturesFromGenres genres).energy ≤ 1) ∧
    (0 ≤ (estimateFeaturesFromGenres genres).danceability ∧
      (estimateFeaturesFromGenres genres).danceability ≤ 1) ∧
    (0 ≤ (estimateFeaturesFromGenres genres).valence ∧
      (estimateFeaturesFromGenres genres).valence ≤ 1) := by
  obtain ⟨h1, h2, h3, h4, h5, h6⟩ := estimate_inCube genres
  exact ⟨⟨h1, h2⟩, ⟨h3, h4⟩, ⟨h5, h6⟩⟩

/-- C8: `generateMockSongs` is a pure function that ignores the seed
track; for every mood it returns the same fixed sequence of ten
placeholder tracks with ids `mock-1` through `mock-10`, where each
entry's match percentages are `Math.round` of the target dimension times
that entry's hardcoded multiplier, with no clamping to `[0, 100]` — in
particular entry 3's energy percentage uses the 110% multiplier and
reaches 110 at full target energy. -/
theorem C8_mock_fixed_list (s s' : Track) (m : Features) :
    generateMockSongs s m = generateMockSongs s' m
  ∧ (generateMockSongs s m).length = 10
  ∧ (generateMockSongs s m).map Recommendation.id = mockIds
  ∧ (generateMockSongs s m).map Recommendation.title =
      ["Midnight Dreams", "Electric Horizon", "Violet Echoes",
       "Chrome Streetlights", "Crystal Pulse", "Silver Haze", "Neon Waves",
       "Starlight Echo", "Urban Pulse", "Velvet Night"]
  ∧ (generateMockSongs s m).map Recommendation.reason =
      [mkMockReason (jsRound (m.energy * 100)) (jsRound (m.danceability * 100))
         (jsRound (m.valence * 100)),
       mkMockReason (jsRound (m.energy * 95)) (jsRound (m.danceability * 90))
         (jsRound (m.valence * 90)),
       mkMockReason (jsRound (m.energy * 110)) (jsRound (m.danceability * 95))
         (jsRound (m.valence * 85)),
       mkMockReason (jsRound (m.energy * 88)) (jsRound (m.danceability * 92))
         (jsRound (m.valence * 92)),
       mkMockReason (jsRound (m.energy * 102)) (jsRound (m.danceability * 98))
         (jsRound (m.valence * 98)),
       mkMockReason (jsRound (m.energy * 93)) (jsRound (m.danceability * 87))
         (jsRound (m.valence * 87)),
       mkMockReason (jsRound (m.energy * 91)) (jsRound (m.danceability * 89))
         (jsRound (m.valence * 94)),
       mkMockReason (jsRound (m.energy * 97)) (jsRound (m.danceability * 85))
         (jsRound (m.valence * 88)),
       mkMockReason (jsRound (m.energy * 94)) (jsRound (m.danceability * 96))
         (jsRound (m.valence * 91)),
       mkMockReason (jsRound (m.energy * 86)) (jsRound (m.danceability * 83))
         (jsRound (m.valence * 89))]
  ∧ ((generateMockSongs s ⟨1, 1, 1⟩).map Recommendation.reason)[2]? =
      some (mkMockReason 110 95 85) := by
  refine ⟨rfl, rfl, rfl, rfl, rfl, ?_⟩
  have h2 : ((generateMockSongs s ⟨1, 1, 1⟩).map Recommendation.reason)[2]? =
      some (mkMockReason (jsRound ((1 : ℚ) * 110)) (jsRound ((1 : ℚ) * 95))
        (jsRound ((1 : ℚ) * 85))) := rfl
  have he : jsRound ((1 : ℚ) * 110) = 110 := by norm_num [jsRound]
  have hd : jsRound ((1 : ℚ) * 95) = 95 := by norm_num [jsRound]
  have hv : jsRound ((1 : ℚ) * 85) = 85 := by norm_num [jsRound]
  rw [h2, he, hd, hv]

/-- C9: the Ranker substitutes the seed artist's genre list for a
candidate only when the candidate's primary-artist record is absent
from the resolved map or that record's `genres` field is absent; a
record resolved with an empty genre list keeps the empty list (on which
the estimator returns the default triple), not the seed genres. -/
theorem C9_genre_substitution (m : List (String × ArtistRecord))
    (seedGenres : List String) (t : Track) :
    (lookupPrimaryArtist m t = none → genresForTrack m seedGenres t = seedGenres)
  ∧ (∀ a, lookupPrimaryArtist m t = some a → a.genres = none →
      genresForTrack m seedGenres t = seedGenres)
  ∧ (∀ a gs, lookupPrimaryArtist m t = some a → a.genres = some gs →
      genresForTrack m seedGenres t = gs)
  ∧ (∀ a, lookupPrimaryArtist m t = some a → a.genres = some [] →
      genresForTrack m seedGenres t = [] ∧
        estimateFeaturesFromGenres (some (genresForTrack m seedGenres t)) =
          DEFAULT_FEATURES ∧
        DEFAULT_FEATURES = ⟨6/10, 6/10, 6/10⟩) := by
  refine ⟨?_, ?_, ?_, ?_⟩
  · intro h
    simp [genresForTrack, h]
  · intro a ha hg
    simp [genresForTrack, ha, hg]
  · intro a gs ha hg
    simp [genresForTrack, ha, hg]
  · intro a ha hg
    have h1 : genresForTrack m seedGenres t = [] := by
      simp [genresForTrack, ha, hg]
    exact ⟨h1, by rw [h1]; rfl, rfl⟩

/-- Witness for C9: a resolved record with an empty genre list, a
resolved record with genres absent, and an unresolved candidate, all at
concrete inputs. -/
theorem C9_witness :
    (lookupPrimaryArtist [("a1", ⟨"a1", some []⟩)]
        ⟨"t1", "T", [⟨"a1", "A"⟩], none, none⟩ = some ⟨"a1", some []⟩
      ∧ genresForTrack [("a1", ⟨"a1", some []⟩)] ["rock"]
          ⟨"t1", "T", [⟨"a1", "A"⟩], none, none⟩ = []
      ∧ estimateFeaturesFromGenres
          (some (genresForTrack [("a1", ⟨"a1", some []⟩)] ["rock"]
            ⟨"t1", "T", [⟨"a1", "A"⟩], none, none⟩)) = DEFAULT_FEATURES)
  ∧ (lookupPrimaryArtist [("a2", ⟨"a2", none⟩)]
        ⟨"t1", "T", [⟨"a2", "A"⟩], none, none⟩ = some ⟨"a2", none⟩
      ∧ genresForTrack [("a2", ⟨"a2", none⟩)] ["rock"]
          ⟨"t1", "T", [⟨"a2", "A"⟩], none, none⟩ = ["rock"])
  ∧ (lookupPrimaryArtist [] ⟨"t1", "T", [⟨"a1", "A"⟩], none, none⟩ = none
      ∧ genresForTrack [] ["rock"] ⟨"t1", "T", [⟨"a1", "A"⟩], none, none⟩ =
          ["rock"]) :=
  have h1 : lookupPrimaryArtist [("a1", ⟨"a1", some []⟩)]
      ⟨"t1", "T", [⟨"a1", "A"⟩], none, none⟩ = some ⟨"a1", some []⟩ := rfl
  have h2 : lookupPrimaryArtist [("a2", ⟨"a2", none⟩)]
      ⟨"t1", "T", [⟨"a2", "A"⟩], none, none⟩ = some ⟨"a2", none⟩ := rfl
  have h3 : lookupPrimaryArtist ([] : List (String × ArtistRecord))
      ⟨"t1", "T", [⟨"a1", "A"⟩], none, none⟩ = none := rfl
  have w1 := (C9_genre_substitution [("a1", ⟨"a1", some []⟩)] ["rock"]
      ⟨"t1", "T", [⟨"a1", "A"⟩], none, none⟩).2.2.2 ⟨"a1", some []⟩ h1 rfl
  have w2 := (C9_genre_substitution [("a2", ⟨"a2", none⟩)] ["rock"]
      ⟨"t1", "T", [⟨"a2", "A"⟩], none, none⟩).2.1 ⟨"a2", none⟩ h2 rfl
  have w3 := (C9_genre_substitution [] ["rock"]
      ⟨"t1", "T", [⟨"a1", "A"⟩], none, none⟩).1 h3
  ⟨⟨h1, w1.1, w1.2.1⟩, ⟨h2, w2⟩, ⟨h3, w3⟩⟩

lemma scoreLE_trans : ∀ (a b c : ScoredCandidate),
    scoreLE a b → scoreLE b c → scoreLE a c := by
  intro a b c hab hbc
  simp only [scoreLE, decide_eq_true_eq] at hab hbc ⊢
  exact le_trans hab hbc

lemma scoreLE_total : ∀ (a b : ScoredCandidate), scoreLE a b || scoreLE b a := by
  intro a b
  simp only [scoreLE, Bool.or_eq_true, decide_eq_true_eq]
  exact le_total _ _

lemma sortScored_pairwise (l : List ScoredCandidate) :
    (sortScored l).Pairwise (fun a b => a.moodScore ≤ b.moodScore) := by
  have h := List.sorted_mergeSort scoreLE_trans scoreLE_total l
  exact h.imp (fun hab => by simpa [scoreLE] using hab)

lemma sortScored_filter_eq (l : List ScoredCandidate) (s : ℚ) :
    (sortScored l).filter (fun c => c.moodScore == s) =
      l.filter (fun c => c.moodScore == s) := by
  have hB : (l.filter (fun c => c.moodScore == s)).Pairwise
      (fun a b => scoreLE a b) := by
    apply List.pairwise_of_forall_mem_list
    intro a ha b hb
    have ha2 : a.moodScore = s := by simpa using (List.mem_filter.mp ha).2
    have hb2 : b.moodScore = s := by simpa using (List.mem_filter.mp hb).2
    simp [scoreLE, ha2, hb2]
  have hsub : List.Sublist (l.filter (fun c => c.moodScore == s)) (sortScored l) :=
    List.sublist_mergeSort scoreLE_trans scoreLE_total hB (List.filter_sublist l)
  have hself : (l.filter (fun c => c.moodScore == s)).filter
      (fun c => c.moodScore == s) = l.filter (fun c => c.moodScore == s) :=
    List.filter_eq_self.mpr (fun a ha => (List.mem_filter.mp ha).2)
  have hsub2 : List.Sublist (l.filter (fun c => c.moodScore == s))
      ((sortScored l).filter (fun c => c.moodScore == s)) := by
    have h := hsub.filter (fun c => c.moodScore == s)
    rwa [hself] at h
  have hperm : List.Perm ((sortScored l).filter (fun c => c.moodScore == s))
      (l.filter (fun c => c.moodScore == s)) :=
    (List.mergeSort_perm l scoreLE).filter _
  exact (hsub2.eq_of_length hperm.length_eq.symm).symm

lemma rankAndFormat_length (m : List (String × ArtistRecord))
    (seedGenres : List String) (seedArtistName : String) (mood : Features)
    (cand : List Track) :
    (rankAndFormat m seedGenres seedArtistName mood cand).length =
      min 10 cand.length := by
  simp [rankAndFormat, sortScored, List.length_take]

/-- C3: the Ranker's output is the stable-sorted, truncated pool: its
length is `min(10, poolSize)`; the retained scored candidates are
pairwise non-decreasing in mood score; and candidates of equal mood
score keep collection order (the sorted pool filtered to one score value
equals the unsorted pool filtered to it). -/
theorem C3_ranker_sorted_stable (m : List (String × ArtistRecord))
    (seedGenres : List String) (seedArtistName : String) (mood : Features)
    (cand : List Track) :
    rankAndFormat m seedGenres seedArtistName mood cand =
      ((sortScored (cand.map (scoreTrack m seedGenres mood))).take 10).map
        (formatRec mood seedArtistName)
  ∧ (rankAndFormat m seedGenres seedArtistName mood cand).length =
      min 10 cand.length
  ∧ ((sortScored (cand.map (scoreTrack m seedGenres mood))).take 10).Pairwise
      (fun a b => a.moodScore ≤ b.moodScore)
  ∧ (∀ s : ℚ,
      (sortScored (cand.map (scoreTrack m seedGenres mood))).filter
          (fun c => c.moodScore == s) =
        (cand.map (scoreTrack m seedGenres mood)).filter
          (fun c => c.moodScore == s)) :=
  ⟨rfl, rankAndFormat_length m seedGenres seedArtistName mood cand,
   (sortScored_pairwise _).sublist (List.take_sublist _ _),
   fun s => sortScored_filter_eq _ s⟩

lemma matchPercent_bounds {f t : ℚ} (hf0 : 0 ≤ f) (hf1 : f ≤ 1)
    (ht0 : 0 ≤ t) (ht1 : t ≤ 1) :
    0 ≤ matchPercent f t ∧ matchPercent f t ≤ 100 := by
  have habs0 : (0 : ℚ) ≤ |f - t| := abs_nonneg _
  have habs1 : |f - t| ≤ 1 := abs_le.mpr ⟨by linarith, by linarith⟩
  unfold matchPercent jsRound
  constructor
  · apply Int.le_floor.mpr
    push_cast
    nlinarith
  · have hlt : (1 - |f - t|) * 100 + 1/2 < ((101 : ℤ) : ℚ) := by
      push_cast
      nlinarith
    have h := Int.floor_lt.mpr hlt
    omega

/-- C10: on the live path, when the mood settings lie in the unit cube,
every output recommendation's reason string carries three match
percentages, each in `[0, 100]` (the estimator's components lie in
`[0, 1]`, so `round((1 - |feature - target|) * 100)` cannot leave
`[0, 100]`). -/
theorem C10_live_percentages (m : List (String × ArtistRecord))
    (seedGenres : List String) (seedArtistName : String) (mood : Features)
    (cand : List Track) (hmood : inCube mood) :
    ∀ r ∈ rankAndFormat m seedGenres seedArtistName mood cand,
      ∃ e d v : ℤ, r.reason = mkLiveReason e d v seedArtistName ∧
        0 ≤ e ∧ e ≤ 100 ∧ 0 ≤ d ∧ d ≤ 100 ∧ 0 ≤ v ∧ v ≤ 100 := by
  intro r hr
  simp only [rankAndFormat, List.mem_map] at hr
  obtain ⟨sc, hsc, rfl⟩ := hr
  have hmem : sc ∈ sortScored (cand.map (scoreTrack m seedGenres mood)) :=
    List.mem_of_mem_take hsc
  have hmem2 : sc ∈ cand.map (scoreTrack m seedGenres mood) := by
    simpa [sortScored] using hmem
  obtain ⟨t, ht, rfl⟩ := List.mem_map.mp hmem2
  obtain ⟨hm1, hm2, hm3, hm4, hm5, hm6⟩ := hmood
  obtain ⟨he1, he2, hd1, hd2, hv1, hv2⟩ :=
    estimate_inCube (some (genresForTrack m seedGenres t))
  have hfe := matchPercent_bounds he1 he2 hm1 hm2
  have hfd := matchPercent_bounds hd1 hd2 hm3 hm4
  have hfv := matchPercent_bounds hv1 hv2 hm5 hm6
  exact ⟨matchPercent (scoreTrack m seedGenres mood t).features.energy mood.energy,
    matchPercent (scoreTrack m seedGenres mood t).features.danceability
      mood.danceability,
    matchPercent (scoreTrack m seedGenres mood t).features.valence mood.valence,
    rfl, hfe.1, hfe.2, hfd.1, hfd.2, hfv.1, hfv.2⟩

/-- Witness for C10: the unit-cube hypothesis holds at a concrete mood
and pool. -/
theorem C10_witness :
    inCube (⟨1/2, 1/2, 1/2⟩ : Features) ∧
      (∀ r ∈ rankAndFormat [] [] "Seed" ⟨1/2, 1/2, 1/2⟩
          [⟨"t1", "T", [], none, none⟩],
        ∃ e d v : ℤ, r.reason = mkLiveReason e d v "Seed" ∧
          0 ≤ e ∧ e ≤ 100 ∧ 0 ≤ d ∧ d ≤ 100 ∧ 0 ≤ v ∧ v ≤ 100) :=
  have h : inCube (⟨1/2, 1/2, 1/2⟩ : Features) := by
    refine ⟨by norm_num, by norm_num, by norm_num, by norm_num, by norm_num,
      by norm_num⟩
  ⟨h, C10_live_percentages [] [] "Seed" ⟨1/2, 1/2, 1/2⟩
    [⟨"t1", "T", [], none, none⟩] h⟩

lemma considerTrack_inv {s : String} {cs : List Track × List String}
    (h : CollInv s cs) (t : Track) : CollInv s (considerTrack cs t) := by
  obtain ⟨h1, h2, h3, h4⟩ := h
  unfold considerTrack
  by_cases ht : t.id ∈ cs.2
  · rw [if_pos ht]
    exact ⟨h1, h2, h3, h4⟩
  · rw [if_neg ht]
    have hnot : t.id ∉ cs.1.map Track.id := by
      intro hmem
      obtain ⟨u, hu, hid⟩ := List.mem_map.mp hmem
      exact ht (hid ▸ h2 u hu)
    refine ⟨?_, ?_, ?_, ?_⟩
    · rw [List.map_append]
      simp only [List.map_cons, List.map_nil]
      rw [List.nodup_append]
      exact ⟨h1, List.nodup_singleton _,
        by simpa [List.disjoint_singleton] using hnot⟩
    · intro u hu
      rcases List.mem_append.mp hu with hl | hr
      · exact List.mem_append_left _ (h2 u hl)
      · simp only [List.mem_singleton] at hr
        subst hr
        exact List.mem_append_right _ (by simp)
    · exact List.mem_append_left _ h3
    · rw [List.map_append]
      simp only [List.map_cons, List.map_nil]
      intro hmem
      rcases List.mem_append.mp hmem with hl | hr
      · exact h4 hl
      · simp only [List.mem_singleton] at hr
        exact ht (hr ▸ h3)

lemma foldl_considerTrack_inv {s : String} (tt : List Track)
    {cs : List Track × List String} (h : CollInv s cs) :
    CollInv s (tt.foldl considerTrack cs) := by
  induction tt generalizing cs with
  | nil => exact h
  | cons t ts ih => exact ih (considerTrack_inv h t)

lemma addFound_inv {s : String} (found : List Track)
    {cs : List Track × List String} (h : CollInv s cs) :
    CollInv s (addFound found cs) := by
  induction found generalizing cs with
  | nil => exact h
  | cons t ts ih =>
    simp only [addFound]
    split
    · exact considerTrack_inv h t
    · exact ih (considerTrack_inv h t)

lemma searchStep_inv {s : String} (env : Upstream) (g : String)
    {cs : List Track × List String} (h : CollInv s cs) :
    CollInv s (searchStep env g cs) := by
  unfold searchStep
  cases env.searchResults g with
  | error e => exact h
  | ok found => exact addFound_inv found h

lemma searchGenres_inv {s : String} (env : Upstream) (gl : List String)
    {cs : List Track × List String} (h : CollInv s cs) :
    CollInv s (searchGenres env gl cs).1 := by
  induction gl generalizing cs with
  | nil => exact h
  | cons g gs ih =>
    simp only [searchGenres]
    split
    · exact searchStep_inv env g h
    · exact ih (searchStep_inv env g h)

lemma collect_inv (seedId : String) (topTracks : List Track)
    (mainGenres : List String) (env : Upstream) :
    CollInv seedId (collectCandidates seedId topTracks mainGenres env).1 := by
  have h0 : CollInv seedId (([] : List Track), [seedId]) :=
    ⟨List.nodup_nil, by simp, by simp, by simp⟩
  exact searchGenres_inv env mainGenres (foldl_considerTrack_inv topTracks h0)

lemma rankAndFormat_map_id (m : List (String × ArtistRecord))
    (seedGenres : List String) (seedArtistName : String) (mood : Features)
    (cand : List Track) :
    (rankAndFormat m seedGenres seedArtistName mood cand).map Recommendation.id =
      ((sortScored (cand.map (scoreTrack m seedGenres mood))).take 10).map
        (fun sc => sc.track.id) := by
  simp only [rankAndFormat, List.map_map]
  rfl

lemma scored_map_track_id (m : List (String × ArtistRecord))
    (seedGenres : List String) (mood : Features) (cand : List Track) :
    (cand.map (scoreTrack m seedGenres mood)).map (fun sc => sc.track.id) =
      cand.map Track.id := by
  rw [List.map_map]
  rfl

lemma rank_ids_nodup (m : List (String × ArtistRecord))
    (seedGenres : List String) (seedArtistName : String) (mood : Features)
    (cand : List Track) (h : (cand.map Track.id).Nodup) :
    ((rankAndFormat m seedGenres seedArtistName mood cand).map
      Recommendation.id).Nodup := by
  rw [rankAndFormat_map_id]
  have hperm : List.Perm
      ((sortScored (cand.map (scoreTrack m seedGenres mood))).map
        (fun sc => sc.track.id))
      ((cand.map (scoreTrack m seedGenres mood)).map (fun sc => sc.track.id)) :=
    (List.mergeSort_perm _ _).map _
  rw [scored_map_track_id] at hperm
  have hn : ((sortScored (cand.map (scoreTrack m seedGenres mood))).map
      (fun sc => sc.track.id)).Nodup := hperm.nodup_iff.mpr h
  rw [List.map_take]
  exact hn.sublist (List.take_sublist _ _)

lemma rank_ids_not_mem (m : List (String × ArtistRecord))
    (seedGenres : List String) (seedArtistName : String) (mood : Features)
    (cand : List Track) (x : String) (h : x ∉ cand.map Track.id) :
    x ∉ (rankAndFormat m seedGenres seedArtistName mood cand).map
      Recommendation.id := by
  rw [rankAndFormat_map_id]
  intro hx
  rw [List.map_take] at hx
  have hx2 : x ∈ (sortScored (cand.map (scoreTrack m seedGenres mood))).map
      (fun sc => sc.track.id) := List.mem_of_mem_take hx
  have hperm : List.Perm
      ((sortScored (cand.map (scoreTrack m seedGenres mood))).map
        (fun sc => sc.track.id))
      ((cand.map (scoreTrack m seedGenres mood)).map (fun sc => sc.track.id)) :=
    (List.mergeSort_perm _ _).map _
  rw [scored_map_track_id] at hperm
  exact h (hperm.mem_iff.mp hx2)

lemma mock_map_id (s : Track) (m : Features) :
    (generateMockSongs s m).map Recommendation.id = mockIds := rfl

/-- Counterexample for C4 as stated: on the mock fallback path the seed
track's identifier can appear in the output, because the mock list's
identifiers are fixed; a seed track whose id is `mock-1`, with no token,
is recommended its own identifier. -/
theorem C4_counterexample :
    seedClash.id ∈
      (generateSongs seedClash ⟨1/2, 1/2, 1/2⟩ none env0).map
        Recommendation.id := by
  have h : (generateSongs seedClash ⟨1/2, 1/2, 1/2⟩ none env0).map
      Recommendation.id = mockIds := rfl
  rw [h]
  decide

/-- C4 (amended): no output identifier ever repeats, on either path; the
seed identifier never appears in the output when it is not one of the
ten fixed mock identifiers; on the live path — both initial retrievals
succeed, a token and a truthy primary-artist id are present, and the
collected pool is nonempty — the seed identifier never appears,
whatever it is (the fixed mock identifiers included); and whenever the
seed identifier does appear, the output is the mock fallback list and
the seed identifier is one of the ten fixed mock identifiers. -/
theorem C4_dedup_amended (seedSong : Track) (mood : Features)
    (token : Option String) (env : Upstream) :
    ((generateSongs seedSong mood token env).map Recommendation.id).Nodup
  ∧ (seedSong.id ∉ mockIds →
      seedSong.id ∉ (generateSongs seedSong mood token env).map
        Recommendation.id)
  ∧ (∀ (sa : ArtistRecord) (tt : List Track),
      env.artistResult = Except.ok sa → env.topTracksResult = Except.ok tt →
      token ≠ none → truthyHeadArtistId seedSong ≠ none →
      (collectCandidates seedSong.id tt
        ((sa.genres.getD []).take 2) env).1.1 ≠ [] →
      seedSong.id ∉ (generateSongs seedSong mood token env).map
        Recommendation.id)
  ∧ (seedSong.id ∈ (generateSongs seedSong mood token env).map
        Recommendation.id →
      generateSongs seedSong mood token env = generateMockSongs seedSong mood
        ∧ seedSong.id ∈ mockIds) := by
  have hmockn : mockIds.Nodup := by decide
  cases token with
  | none =>
    rw [show generateSongs seedSong mood none env =
      generateMockSongs seedSong mood from rfl, mock_map_id]
    refine ⟨hmockn, fun h => h, ?_, fun hm => ⟨rfl, hm⟩⟩
    intro sa tt _ _ htk _ _
    exact absurd rfl htk
  | some tk =>
    cases htr : truthyHeadArtistId seedSong with
    | none =>
      have hg : generateSongs seedSong mood (some tk) env =
          generateMockSongs seedSong mood := by
        simp [generateSongs, htr]
      rw [hg, mock_map_id]
      refine ⟨hmockn, fun h => h, ?_, fun hm => ⟨rfl, hm⟩⟩
      intro sa tt _ _ _ htrn _
      exact absurd rfl htrn
    | some aid =>
      cases har : env.artistResult with
      | error e =>
        have hg : generateSongs seedSong mood (some tk) env =
            generateMockSongs seedSong mood := by
          simp [generateSongs, htr, har]
        rw [hg, mock_map_id]
        refine ⟨hmockn, fun h => h, ?_, fun hm => ⟨rfl, hm⟩⟩
        intro sa tt har' _ _ _ _
        exact absurd har' (by simp)
      | ok sa =>
        cases htt : env.topTracksResult with
        | error e =>
          have hg : generateSongs seedSong mood (some tk) env =
              generateMockSongs seedSong mood := by
            simp [generateSongs, htr, har, htt]
          rw [hg, mock_map_id]
          refine ⟨hmockn, fun h => h, ?_, fun hm => ⟨rfl, hm⟩⟩
          intro sa' tt' _ hbad _ _ _
          exact absurd hbad (by simp)
        | ok tt =>
          by_cases hc : ((collectCandidates seedSong.id tt
              ((sa.genres.getD []).take 2) env).1.1).length = 0
          · have hg : generateSongs seedSong mood (some tk) env =
                generateMockSongs seedSong mood := by
              simp only [generateSongs, htr, har, htt]
              rw [if_pos hc]
            rw [hg, mock_map_id]
            refine ⟨hmockn, fun h => h, ?_, fun hm => ⟨rfl, hm⟩⟩
            intro sa' tt' har' htt' _ _ hpne
            have hsa : sa = sa' := by injection har'
            have htt2 : tt = tt' := by injection htt'
            subst hsa
            subst htt2
            exact absurd (List.length_eq_zero.mp hc) hpne
          · have hg : generateSongs seedSong mood (some tk) env =
                rankAndFormat
                  (artistMapOfBatches env (artistIdList
                    ((collectCandidates seedSong.id tt
                      ((sa.genres.getD []).take 2) env).1.1)))
                  (sa.genres.getD [])
                  (match seedSong.artists.head? with
                    | some a => a.name
                    | none => "")
                  mood
                  ((collectCandidates seedSong.id tt
                    ((sa.genres.getD []).take 2) env).1.1) := by
              simp only [generateSongs, htr, har, htt]
              rw [if_neg hc]
            obtain ⟨hnodup, -, -, hseed⟩ :=
              collect_inv seedSong.id tt ((sa.genres.getD []).take 2) env
            rw [hg]
            refine ⟨rank_ids_nodup _ _ _ _ _ hnodup,
              fun _ => rank_ids_not_mem _ _ _ _ _ _ hseed, ?_, ?_⟩
            · intro sa' tt' _ _ _ _ _
              exact rank_ids_not_mem _ _ _ _ _ _ hseed
            · intro hm
              exact absurd hm (rank_ids_not_mem _ _ _ _ _ _ hseed)

/-- Witness for C4 (amended): a seed id outside the fixed mock ids never
appears in the output; a seed whose id is the fixed `mock-1`, run on the
live path (token present, artist id truthy, both retrievals succeeding,
nonempty pool), still never appears in the output; and when the seed id
does appear (same seed, no token), the output is the mock list and the
id is one of the ten mock ids. -/
theorem C4_witness :
    (("song-7" : String) ∉ mockIds)
  ∧ ((generateSongs ⟨"song-7", "S", [], none, none⟩ ⟨1/2, 1/2, 1/2⟩ none
      env0).map Recommendation.id).Nodup
  ∧ (⟨"song-7", "S", [], none, none⟩ : Track).id ∉
      (generateSongs ⟨"song-7", "S", [], none, none⟩ ⟨1/2, 1/2, 1/2⟩ none
        env0).map Recommendation.id
  ∧ (envLive.artistResult = Except.ok ⟨"a1", none⟩
      ∧ envLive.topTracksResult =
          Except.ok [⟨"top-1", "Top", [⟨"a1", "A"⟩], none, none⟩]
      ∧ (some "tok" : Option String) ≠ none
      ∧ truthyHeadArtistId seedClash ≠ none
      ∧ (collectCandidates seedClash.id
          [⟨"top-1", "Top", [⟨"a1", "A"⟩], none, none⟩]
          (((⟨"a1", none⟩ : ArtistRecord).genres.getD []).take 2)
          envLive).1.1 ≠ []
      ∧ seedClash.id ∉
          (generateSongs seedClash ⟨1/2, 1/2, 1/2⟩ (some "tok") envLive).map
            Recommendation.id)
  ∧ (seedClash.id ∈
        (generateSongs seedClash ⟨1/2, 1/2, 1/2⟩ none env0).map
          Recommendation.id
      ∧ generateSongs seedClash ⟨1/2, 1/2, 1/2⟩ none env0 =
          generateMockSongs seedClash ⟨1/2, 1/2, 1/2⟩
      ∧ seedClash.id ∈ mockIds) :=
  have h7 : ("song-7" : String) ∉ mockIds := by decide
  have ha : envLive.artistResult = Except.ok ⟨"a1", none⟩ := rfl
  have htt : envLive.topTracksResult =
      Except.ok [⟨"top-1", "Top", [⟨"a1", "A"⟩], none, none⟩] := rfl
  have htk : (some "tok" : Option String) ≠ none := by decide
  have htr : truthyHeadArtistId seedClash ≠ none := by decide
  have hp : (collectCandidates seedClash.id
      [⟨"top-1", "Top", [⟨"a1", "A"⟩], none, none⟩]
      (((⟨"a1", none⟩ : ArtistRecord).genres.getD []).take 2)
      envLive).1.1 ≠ [] := by decide
  have hmem : seedClash.id ∈
      (generateSongs seedClash ⟨1/2, 1/2, 1/2⟩ none env0).map
        Recommendation.id := by
    rw [show (generateSongs seedClash ⟨1/2, 1/2, 1/2⟩ none env0).map
      Recommendation.id = mockIds from rfl]
    decide
  ⟨h7,
   (C4_dedup_amended ⟨"song-7", "S", [], none, none⟩ ⟨1/2, 1/2, 1/2⟩ none
     env0).1,
   (C4_dedup_amended ⟨"song-7", "S", [], none, none⟩ ⟨1/2, 1/2, 1/2⟩ none
     env0).2.1 h7,
   ⟨ha, htt, htk, htr, hp,
    (C4_dedup_amended seedClash ⟨1/2, 1/2, 1/2⟩ (some "tok") envLive).2.2.1
      ⟨"a1", none⟩ [⟨"top-1", "Top", [⟨"a1", "A"⟩], none, none⟩]
      ha htt htk htr hp⟩,
   ⟨hmem,
    (C4_dedup_amended seedClash ⟨1/2, 1/2, 1/2⟩ none env0).2.2.2 hmem⟩⟩

lemma considerTrack_length_le (cs : List Track × List String) (t : Track) :
    (considerTrack cs t).1.length ≤ cs.1.length + 1 := by
  unfold considerTrack
  split
  · omega
  · simp

lemma addFound_length_le (found : List Track) (cs : List Track × List String)
    (h : cs.1.length < 40) : (addFound found cs).1.length ≤ 40 := by
  induction found generalizing cs with
  | nil =>
    simp only [addFound]
    omega
  | cons t ts ih =>
    simp only [addFound]
    have hle := considerTrack_length_le cs t
    split
    · omega
    · rename_i h40
      exact ih _ (by omega)

lemma searchGenres_length_le (env : Upstream) (gl : List String)
    (cs : List Track × List String) (h : cs.1.length < 40) :
    (searchGenres env gl cs).1.1.length ≤ 40 := by
  induction gl generalizing cs with
  | nil => exact h.le
  | cons g gs ih =>
    have hstep : (searchStep env g cs).1.length ≤ 40 := by
      unfold searchStep
      cases env.searchResults g with
      | error e => exact h.le
      | ok found => exact addFound_length_le found cs h
    simp only [searchGenres]
    split
    · exact hstep
    · rename_i h40
      exact ih _ (by omega)

lemma searchGenres_error_skip (env : Upstream) (g : String) (gs : List String)
    (cs : List Track × List String)
    (herr : env.searchResults g = Except.error ()) (h : cs.1.length < 40) :
    searchGenres env (g :: gs) cs =
      ((searchGenres env gs cs).1, g :: (searchGenres env gs cs).2) := by
  have hstep : searchStep env g cs = cs := by
    simp [searchStep, herr]
  simp only [searchGenres, hstep]
  rw [if_neg (by omega)]

lemma searchGenres_stop (env : Upstream) (g : String) (gs : List String)
    (cs : List Track × List String)
    (h : 40 ≤ (searchStep env g cs).1.length) :
    searchGenres env (g :: gs) cs = ((searchStep env g cs), [g]) := by
  simp only [searchGenres]
  rw [if_pos h]

set_option maxRecDepth 10000 in
/-- Counterexample for C5 as stated: with the pool already at 40 tracks
after the top tracks, the first genre search still adds one more track
(the cap is checked only after an item is processed) and the remaining
genre search is not issued (the loop over genres breaks at the cap) —
contradicting both "no further tracks are added" and "the remaining
genre-keyword searches are still issued". -/
theorem C5_counterexample :
    (c5top.foldl considerTrack ([], ["seed"])).1.length = 40
  ∧ (collectCandidates "seed" c5top ["g1", "g2"] envC5).1.1.length = 41
  ∧ (collectCandidates "seed" c5top ["g1", "g2"] envC5).2 = ["g1"] := by
  refine ⟨?_, ?_, ?_⟩ <;> rfl

/-- C5 (amended): a failed individual genre search is skipped without
aborting the collection (the remaining genres are still processed); a
genre scan entered with fewer than 40 candidates never leaves the pool
above 40; and once the pool has at least 40 tracks after a genre's
search step, the loop stops — the remaining genre searches are not
issued. -/
theorem C5_cap_amended (env : Upstream) (g : String) (gs : List String)
    (cs : List Track × List String) :
    (env.searchResults g = Except.error () → cs.1.length < 40 →
      searchGenres env (g :: gs) cs =
        ((searchGenres env gs cs).1, g :: (searchGenres env gs cs).2))
  ∧ (cs.1.length < 40 →
      ∀ gl : List String, (searchGenres env gl cs).1.1.length ≤ 40)
  ∧ (40 ≤ (searchStep env g cs).1.length →
      searchGenres env (g :: gs) cs = ((searchStep env g cs), [g])) :=
  ⟨fun herr h => searchGenres_error_skip env g gs cs herr h,
   fun h gl => searchGenres_length_le env gl cs h,
   fun h => searchGenres_stop env g gs cs h⟩

set_option maxRecDepth 10000 in
/-- Witness for C5 (amended): all three hypotheses hold at concrete
inputs — a rejected search is skipped, a small pool stays at or below
40, and a pool at the cap stops the genre loop. -/
theorem C5_witness :
    (env0.searchResults "g" = Except.error ()
      ∧ (([], []) : List Track × List String).1.length < 40
      ∧ searchGenres env0 ["g"] ([], []) =
          ((searchGenres env0 [] (([], []) : List Track × List String)).1,
            "g" :: (searchGenres env0 []
              (([], []) : List Track × List String)).2))
  ∧ (searchGenres env0 ["g"] (([], []) : List Track × List String)).1.1.length ≤ 40
  ∧ (40 ≤ (searchStep envC5 "g1"
        (c5top.foldl considerTrack ([], ["seed"]))).1.length
      ∧ searchGenres envC5 ["g1", "g2"]
          (c5top.foldl considerTrack ([], ["seed"])) =
        ((searchStep envC5 "g1" (c5top.foldl considerTrack ([], ["seed"]))),
          ["g1"])) :=
  have h1 : env0.searchResults "g" = Except.error () := rfl
  have h2 : (([], []) : List Track × List String).1.length < 40 := by decide
  have h3 : 40 ≤ (searchStep envC5 "g1"
      (c5top.foldl considerTrack ([], ["seed"]))).1.length := by decide
  ⟨⟨h1, h2, (C5_cap_amended env0 "g" [] ([], [])).1 h1 h2⟩,
   (C5_cap_amended env0 "g" [] ([], [])).2.1 h2 ["g"],
   ⟨h3, (C5_cap_amended envC5 "g1" ["g2"]
     (c5top.foldl considerTrack ([], ["seed"]))).2.2 h3⟩⟩

lemma gen_no_token (seedSong : Track) (mood : Features) (env : Upstream) :
    generateSongs seedSong mood none env = generateMockSongs seedSong mood := rfl

lemma gen_no_artist (seedSong : Track) (mood : Features)
    (token : Option String) (env : Upstream)
    (h : truthyHeadArtistId seedSong = none) :
    generateSongs seedSong mood token env = generateMockSongs seedSong mood := by
  cases token with
  | none => rfl
  | some tk => simp [generateSongs, h]

lemma gen_env_indep (seedSong : Track) (mood : Features)
    (token : Option String) (env env' : Upstream)
    (h : truthyHeadArtistId seedSong = none) :
    generateSongs seedSong mood token env =
      generateSongs seedSong mood token env' := by
  rw [gen_no_artist seedSong mood token env h,
    gen_no_artist seedSong mood token env' h]

lemma gen_retrieval_fail (seedSong : Track) (mood : Features)
    (token : Option String) (env : Upstream)
    (h : env.artistResult = Except.error () ∨
      env.topTracksResult = Except.error ()) :
    generateSongs seedSong mood token env = generateMockSongs seedSong mood := by
  cases token with
  | none => rfl
  | some tk =>
    cases htr : truthyHeadArtistId seedSong with
    | none => simp [generateSongs, htr]
    | some aid =>
      rcases h with h | h
      · cases htt : env.topTracksResult <;> simp [generateSongs, htr, h, htt]
      · cases har : env.artistResult <;> simp [generateSongs, htr, h, har]

lemma gen_empty_pool (seedSong : Track) (mood : Features)
    (token : Option String) (env : Upstream)
    (h : collectedPool seedSong env = []) :
    generateSongs seedSong mood token env = generateMockSongs seedSong mood := by
  cases token with
  | none => rfl
  | some tk =>
    cases htr : truthyHeadArtistId seedSong with
    | none => simp [generateSongs, htr]
    | some aid =>
      cases har : env.artistResult with
      | error e =>
        cases htt : env.topTracksResult <;>
          simp [generateSongs, htr, har, htt]
      | ok sa =>
        cases htt : env.topTracksResult with
        | error e => simp [generateSongs, htr, har, htt]
        | ok tt =>
          simp only [collectedPool, har, htt] at h
          simp only [generateSongs, htr, har, htt]
          rw [if_pos (by simp [h])]

lemma gen_length_le (seedSong : Track) (mood : Features)
    (token : Option String) (env : Upstream) :
    (generateSongs seedSong mood token env).length ≤ 10 := by
  have hm : (generateMockSongs seedSong mood).length = 10 := rfl
  cases token with
  | none =>
    rw [gen_no_token, hm]
  | some tk =>
    cases htr : truthyHeadArtistId seedSong with
    | none =>
      rw [gen_no_artist seedSong mood (some tk) env htr, hm]
    | some aid =>
      cases har : env.artistResult with
      | error e =>
        rw [gen_retrieval_fail seedSong mood (some tk) env
          (Or.inl (by rw [har])), hm]
      | ok sa =>
        cases htt : env.topTracksResult with
        | error e =>
          rw [gen_retrieval_fail seedSong mood (some tk) env
            (Or.inr (by rw [htt])), hm]
        | ok tt =>
          by_cases hc : ((collectCandidates seedSong.id tt
              ((sa.genres.getD []).take 2) env).1.1).length = 0
          · have hg : generateSongs seedSong mood (some tk) env =
                generateMockSongs seedSong mood := by
              simp only [generateSongs, htr, har, htt]
              rw [if_pos hc]
            rw [hg, hm]
          · have hg : generateSongs seedSong mood (some tk) env =
                rankAndFormat
                  (artistMapOfBatches env (artistIdList
                    ((collectCandidates seedSong.id tt
                      ((sa.genres.getD []).take 2) env).1.1)))
                  (sa.genres.getD [])
                  (match seedSong.artists.head? with
                    | some a => a.name
                    | none => "")
                  mood
                  ((collectCandidates seedSong.id tt
                    ((sa.genres.getD []).take 2) env).1.1) := by
              simp only [generateSongs, htr, har, htt]
              rw [if_neg hc]
            rw [hg, rankAndFormat_length]
            exact Nat.min_le_left 10 _

/-- C1: the caller-facing entry point is total (the embedding is a plain
function) and always returns at most ten recommendations; with no
token, with a seed track lacking a truthy primary-artist id (in which
case the upstream environment is never consulted), with a failed
initial retrieval, or with an empty candidate pool, the result is
exactly the mock fallback list. -/
theorem C1_entry_point (seedSong : Track) (mood : Features)
    (token : Option String) (env : Upstream) :
    (generateSongs seedSong mood token env).length ≤ 10
  ∧ (generateMockSongs seedSong mood).length = 10
  ∧ (token = none →
      generateSongs seedSong mood token env = generateMockSongs seedSong mood)
  ∧ (truthyHeadArtistId seedSong = none →
      generateSongs seedSong mood token env = generateMockSongs seedSong mood
        ∧ ∀ env' : Upstream, generateSongs seedSong mood token env =
            generateSongs seedSong mood token env')
  ∧ ((env.artistResult = Except.error () ∨
        env.topTracksResult = Except.error ()) →
      generateSongs seedSong mood token env = generateMockSongs seedSong mood)
  ∧ (collectedPool seedSong env = [] →
      generateSongs seedSong mood token env = generateMockSongs seedSong mood) :=
  ⟨gen_length_le seedSong mood token env,
   rfl,
   fun h => by rw [h]; exact gen_no_token seedSong mood env,
   fun h => ⟨gen_no_artist seedSong mood token env h,
     fun env' => gen_env_indep seedSong mood token env env' h⟩,
   fun h => gen_retrieval_fail seedSong mood token env h,
   fun h => gen_empty_pool seedSong mood token env h⟩

/-- Witness for C1: every fallback hypothesis holds at concrete inputs
(no token; an artistless seed with a token; a rejected retrieval; an
empty pool). -/
theorem C1_witness :
    (generateSongs seedClash ⟨1/2, 1/2, 1/2⟩ none env0).length ≤ 10
  ∧ generateSongs seedClash ⟨1/2, 1/2, 1/2⟩ none env0 =
      generateMockSongs seedClash ⟨1/2, 1/2, 1/2⟩
  ∧ truthyHeadArtistId ⟨"s", "S", [], none, none⟩ = none
  ∧ generateSongs ⟨"s", "S", [], none, none⟩ ⟨1/2, 1/2, 1/2⟩ (some "tok") env0 =
      generateMockSongs ⟨"s", "S", [], none, none⟩ ⟨1/2, 1/2, 1/2⟩
  ∧ (env0.artistResult = Except.error () ∨
      env0.topTracksResult = Except.error ())
  ∧ generateSongs seedClash ⟨1/2, 1/2, 1/2⟩ (some "tok") env0 =
      generateMockSongs seedClash ⟨1/2, 1/2, 1/2⟩
  ∧ collectedPool seedClash env0 = []
  ∧ generateSongs seedClash ⟨1/2, 1/2, 1/2⟩ (some "tok2") env0 =
      generateMockSongs seedClash ⟨1/2, 1/2, 1/2⟩ :=
  have htr : truthyHeadArtistId ⟨"s", "S", [], none, none⟩ = none := rfl
  have herr : env0.artistResult = Except.error () ∨
      env0.topTracksResult = Except.error () := Or.inl rfl
  have hpool : collectedPool seedClash env0 = [] := rfl
  ⟨(C1_entry_point seedClash ⟨1/2, 1/2, 1/2⟩ none env0).1,
   (C1_entry_point seedClash ⟨1/2, 1/2, 1/2⟩ none env0).2.2.1 rfl,
   htr,
   ((C1_entry_point ⟨"s", "S", [], none, none⟩ ⟨1/2, 1/2, 1/2⟩ (some "tok")
     env0).2.2.2.1 htr).1,
   herr,
   (C1_entry_point seedClash ⟨1/2, 1/2, 1/2⟩ (some "tok")
     env0).2.2.2.2.1 herr,
   hpool,
   (C1_entry_point seedClash ⟨1/2, 1/2, 1/2⟩ (some "tok2")
     env0).2.2.2.2.2 hpool⟩

end Moodify
